import Mathlib

/-!
Verification of the Wind-and-River trading system's indicator and
confluence engine against its natural-language specification.

The Python sources are shallowly embedded: prices and indicator values
are rationals (`ℚ`), a float NaN is `Option.none`, a Python function
that may return `None` yields an `Option`, and a function that may
raise yields an `Except`.  Each definition mirrors one function of
`src/trading_system`, keeping its name.
-/

namespace Indicators
/- Embedding of `src/trading_system/indicators.py`. -/

/-- `calculate_wma(data, period)` — scalar weighted moving average:
`None` when fewer than `period` values exist, otherwise the dot product
of the trailing `period` values with weights `1..period`, divided by the
weight sum. -/
def calculate_wma (data : List ℚ) (period : ℕ) : Option ℚ :=
  if data.length < period then none
  else
    let weights := (List.range period).map (fun i : ℕ => ((i : ℚ) + 1))
    let recent_data := data.drop (data.length - period)
    some ((List.zipWith (fun x w => x * w) recent_data weights).sum / weights.sum)

/-- `calculate_hull_ma(data, period)` — the scalar Hull MA of
`indicators.py`: it computes `2*WMA(period/2) - WMA(period)` and
returns that value directly (the body's comment notes the final
`WMA(..., sqrt(period))` smoothing pass is skipped). -/
def calculate_hull_ma (data : List ℚ) (period : ℕ) : Option ℚ :=
  if data.length < period then none
  else
    let half_period := period / 2
    match calculate_wma data half_period, calculate_wma data period with
    | some wma_half, some wma_full => some (2 * wma_half - wma_full)
    | _, _ => none

/-- One window of `calculate_wma_series`: the trailing `period` values
ending at the current index, dotted with weights `1..period`.  A NaN
(`none`) anywhere in the window makes the result NaN, mirroring
`np.sum` over an array containing NaN. -/
def windowDot (window : List (Option ℚ)) (period : ℕ) : Option ℚ :=
  if window.contains none then none
  else
    let weights := (List.range period).map (fun i : ℕ => ((i : ℚ) + 1))
    some ((List.zipWith (fun x w => x.getD 0 * w) window weights).sum / weights.sum)

/-- `calculate_wma_series(prices, period)`: an all-NaN series when the
input is shorter than `period`, otherwise NaN for the first
`period - 1` indices and the weighted trailing-window average at each
later index. -/
def calculate_wma_series (prices : List (Option ℚ)) (period : ℕ) : List (Option ℚ) :=
  if prices.length < period then prices.map (fun _ => none)
  else
    (List.range prices.length).map (fun i =>
      if i < period - 1 then none
      else windowDot ((prices.drop (i + 1 - period)).take period) period)

/-- `calculate_hull_ma_series(prices, period)` — the series Hull MA of
`indicators.py`: `WMA(2*WMA(n/2) - WMA(n), int(sqrt(n)))`, where both
`period/2` and `sqrt(period)` are truncated to integers as in the
source (`int(period / 2)`, `int(np.sqrt(period))`). -/
def calculate_hull_ma_series (prices : List ℚ) (period : ℕ) : List (Option ℚ) :=
  if prices.length < period then prices.map (fun _ => none)
  else
    let ps := prices.map some
    let half_period := period / 2
    let wma_half := calculate_wma_series ps half_period
    let wma_full := calculate_wma_series ps period
    let diff := List.zipWith (fun a b =>
      match a, b with
      | some x, some y => some (2 * x - y)
      | _, _ => none) wma_half wma_full
    calculate_wma_series diff (Nat.sqrt period)

/-- The spec's weighted-average formula, written as the spec states it:
weight `i` (for `i` in `1..p`) applied to the `i`-th oldest value of
the trailing `p`-element window, divided by the weight sum. -/
def wmaSpecFormula (data : List ℚ) (p : ℕ) : ℚ :=
  (Finset.sum (Finset.range p) (fun i =>
    ((i : ℚ) + 1) * (data.drop (data.length - p)).getD i 0)) /
  (Finset.sum (Finset.range p) (fun i => ((i : ℚ) + 1)))

/-- A synthetic monotonically increasing 30-element series `1..30`. -/
def monoSeries : List ℚ := (List.range 30).map (fun i : ℕ => (i : ℚ) + 1)

end Indicators

namespace MasterConfluence
/- Embedding of `src/trading_system/master_confluence.py`. -/

/-- The two directional systems a detector event is tagged with
(`'wind_catcher'` is the bullish side, `'river_turn'` the bearish
side); every event produced by the four detector wrappers carries one
of these two values. -/
inductive TSystem
  | wind_catcher
  | river_turn
  deriving DecidableEq

/-- One detector event as consumed by `calculate_master_confluence`:
the dict `{'type', 'system', 'description', 'strength'}`. -/
structure IndicatorSignal where
  type : String
  system : TSystem
  description : String
  strength : ℚ
  deriving DecidableEq

/-- One volume reading of `detect_volume_signals`:
`{'timestamp', 'level', 'ratio', 'strength'}`. -/
structure VolumeSignal where
  timestamp : ℤ
  level : String
  ratio : ℚ
  strength : ℚ
  deriving DecidableEq

/-- The running accumulator of `calculate_master_confluence`'s four
signal loops: `total_score`, `confluence_factors`, `primary_system`,
`signal_count`. -/
structure AggState where
  total_score : ℚ
  confluence_factors : List String
  primary_system : Option TSystem
  signal_count : ℕ

/-- One iteration of a signal loop in `calculate_master_confluence`:
add the strength, append the description, count the signal, and set
`primary_system` if it is still unset. -/
def addSignal (st : AggState) (signal : IndicatorSignal) : AggState :=
  { total_score := st.total_score + signal.strength,
    confluence_factors := st.confluence_factors ++ [signal.description],
    primary_system :=
      if st.primary_system = none then some signal.system else st.primary_system,
    signal_count := st.signal_count + 1 }

/-- One full signal loop of `calculate_master_confluence`. -/
def addSignals (st : AggState) (signals : List IndicatorSignal) : AggState :=
  signals.foldl addSignal st

/-- The result dict of `calculate_master_confluence`. -/
structure ConfluenceResult where
  score : ℚ
  classification : String
  emoji : String
  factors : List String
  primary_system : Option TSystem
  signal_count : ℕ

/-- The classification ladder at the end of
`calculate_master_confluence`, highest threshold first. -/
def classify (total_score : ℚ) : String × String :=
  if 3.0 ≤ total_score then ("PERFECT", "⭐")
  else if 2.5 ≤ total_score then ("EXCELLENT", "🌟")
  else if 1.8 ≤ total_score then ("VERY GOOD", "✨")
  else if 1.2 ≤ total_score then ("GOOD", "💫")
  else if 0.8 ≤ total_score then ("INTERESTING", "💡")
  else ("WEAK", "🔍")

/-- `calculate_master_confluence`: four identical signal loops in the
fixed order Hull, AO, Alligator, Ichimoku, then the latest volume
reading's strength plus a 0.3 bonus when its ratio is at least 1.5,
then the classification ladder. -/
def calculate_master_confluence
    (hull_signals ao_signals alligator_signals ichimoku_signals : List IndicatorSignal)
    (volume_signals : List VolumeSignal) : ConfluenceResult :=
  let st0 : AggState := ⟨0, [], none, 0⟩
  let st := addSignals (addSignals (addSignals
    (addSignals st0 hull_signals) ao_signals) alligator_signals) ichimoku_signals
  let scoreFactors :=
    match volume_signals.getLast? with
    | some latest_volume =>
        let s := st.total_score + latest_volume.strength
        let f := st.confluence_factors ++ ["Volume: " ++ latest_volume.level]
        if 1.5 ≤ latest_volume.ratio then (s + 0.3, f ++ ["Volume confirmation bonus"])
        else (s, f)
    | none => (st.total_score, st.confluence_factors)
  let c := classify scoreFactors.1
  ⟨scoreFactors.1, c.1, c.2, scoreFactors.2, st.primary_system, st.signal_count⟩

/-- Python's `'pat' in s` substring test. -/
def substr_in (pat s : String) : Bool :=
  (List.range (s.toList.length + 1)).any
    (fun i => (s.toList.drop i).take pat.toList.length == pat.toList)

/-- The dict returned by `enhanced_hull_analyzer.analyze_symbol_hull`,
restricted to the field `get_hull_signals` reads. -/
structure HullAnalysisResult where
  all_signals : List IndicatorSignal

/-- `get_hull_signals`: the analyzer call is wrapped in
`try/except` — an exception (`Except.error`) or a `None` result yields
`[]`, otherwise the analyzer's `all_signals` list. -/
def get_hull_signals (result : Except String (Option HullAnalysisResult)) :
    List IndicatorSignal :=
  match result with
  | .error _ => []
  | .ok none => []
  | .ok (some r) => r.all_signals

/-- One AO divergence dict as produced by `detect_regular_divergence`
and read by `get_ao_signals`. -/
structure AODivergence where
  type : String
  description : String
  strength : ℚ

/-- The `ao_analysis` part of `analyze_symbol_with_ao`'s result. -/
structure AOAnalysis where
  divergences : List AODivergence

/-- `get_ao_signals`: error or `None` yields `[]`; otherwise each
divergence becomes a signal whose system is `wind_catcher` when
`'bullish'` occurs in its type, else `river_turn`. -/
def get_ao_signals (result : Except String (Option AOAnalysis)) :
    List IndicatorSignal :=
  match result with
  | .error _ => []
  | .ok none => []
  | .ok (some r) =>
      r.divergences.map (fun div =>
        { type := div.type,
          system :=
            if substr_in "bullish" div.type then TSystem.wind_catcher
            else TSystem.river_turn,
          description := div.description,
          strength := div.strength })

/-- One Alligator retracement event dict. -/
structure AlligatorEvent where
  type : String
  description : String
  strength : ℚ

/-- The part of `analyze_symbol_alligator`'s result read by
`get_alligator_signals`. -/
structure AlligatorAnalysis where
  retracement_events : List AlligatorEvent

/-- `get_alligator_signals`: error or `None` yields `[]`; otherwise
only `blue_line_contact` and `zone_entry` events become signals, with
system decided by `'bullish' in description`. -/
def get_alligator_signals (result : Except String (Option AlligatorAnalysis)) :
    List IndicatorSignal :=
  match result with
  | .error _ => []
  | .ok none => []
  | .ok (some r) =>
      (r.retracement_events.filter
        (fun e => e.type == "blue_line_contact" || e.type == "zone_entry")).map
        (fun e =>
          { type := "alligator_" ++ e.type,
            system :=
              if substr_in "bullish" e.description then TSystem.wind_catcher
              else TSystem.river_turn,
            description := e.description,
            strength := e.strength })

/-- One Ichimoku significant-event dict (with the `touch_type` and
`cloud_color` fields `get_ichimoku_signals` may read; Python's
`.get(..., '')` default is the empty string). -/
structure IchimokuEvent where
  type : String
  touch_type : String
  cloud_color : String
  description : String
  strength : ℚ

/-- The part of `analyze_symbol_ichimoku`'s result read by
`get_ichimoku_signals`. -/
structure IchimokuAnalysis where
  significant_events : List IchimokuEvent

/-- `get_ichimoku_signals`: error or `None` yields `[]`; otherwise each
event becomes a signal with system from `touch_type` (kijun touches),
from `'green' in cloud_color` (cloud retests), else `wind_catcher`. -/
def get_ichimoku_signals (result : Except String (Option IchimokuAnalysis)) :
    List IndicatorSignal :=
  match result with
  | .error _ => []
  | .ok none => []
  | .ok (some r) =>
      r.significant_events.map (fun e =>
        { type := e.type,
          system :=
            if e.type == "kijun_touch" then
              (if e.touch_type == "support" then TSystem.wind_catcher
               else TSystem.river_turn)
            else if e.type == "cloud_retest" then
              (if substr_in "green" e.cloud_color then TSystem.wind_catcher
               else TSystem.river_turn)
            else TSystem.wind_catcher,
          description := e.description,
          strength := e.strength })

/-- A sample Hull break event (strength 0.7), used as a concrete
instantiation. -/
def sampleHullSignal : IndicatorSignal :=
  ⟨"hull_bullish_break", TSystem.wind_catcher, "First close above Hull 21", 0.7⟩

/-- A sample HOT volume reading (ratio 2.2, strength 0.8), used as a
concrete instantiation. -/
def sampleVolumeSignal : VolumeSignal := ⟨0, "HOT", 2.2, 0.8⟩

end MasterConfluence

namespace AlligatorAnalyzer
/- Embedding of `src/trading_system/alligator_analyzer.py`. -/

/-- `determine_alligator_state(jaw, teeth, lips, threshold_pct)`:
`('unknown', 0.0, 'none')` when any line is NaN or the maximum line is
0; otherwise the spread percentage `((max-min)/max)*100` classifies the
state as `sleeping` (spread at most the threshold) or `awake` with
direction `bullish` (lips>teeth>jaw), `bearish` (lips<teeth<jaw) or
`mixed`.  The source's default `threshold_pct` is 0.15. -/
def determine_alligator_state (jaw teeth lips : Option ℚ) (threshold_pct : ℚ) :
    String × ℚ × String :=
  match jaw, teeth, lips with
  | some j, some t, some l =>
      let max_val := max j (max t l)
      let min_val := min j (min t l)
      if max_val = 0 then ("unknown", 0, "none")
      else
        let spread_pct := ((max_val - min_val) / max_val) * 100
        if spread_pct ≤ threshold_pct then ("sleeping", spread_pct, "consolidation")
        else if l > t ∧ t > j then ("awake", spread_pct, "bullish")
        else if l < t ∧ t < j then ("awake", spread_pct, "bearish")
        else ("awake", spread_pct, "mixed")
  | _, _, _ => ("unknown", 0, "none")

end AlligatorAnalyzer

namespace EnhancedIndicators
/- Embedding of `src/trading_system/enhanced_indicators.py`. -/

/-- One divergence dict appended by `detect_regular_divergence`. -/
structure Divergence where
  type : String
  price_pivot1 : ℕ
  price_pivot2 : ℕ
  osc_pivot1 : ℕ
  osc_pivot2 : ℕ
  strength : ℚ
  description : String
  deriving DecidableEq

/-- The oscillator-pivot matching loop of `detect_regular_divergence`
for one price pivot: scan the recent oscillator pivots in order and
keep the last one within 5 bars of the target. -/
def matchOscPivot (recent_osc_pivots : List ℕ) (price_pivot : ℕ) : Option ℕ :=
  recent_osc_pivots.foldl
    (fun acc (osc_pivot : ℕ) =>
      if ((osc_pivot : ℤ) - (price_pivot : ℤ)).natAbs ≤ 5 then some osc_pivot else acc)
    none

/-- One iteration of `detect_regular_divergence`'s pair loop: match
both price pivots to oscillator pivots, then test the divergence
condition for the requested direction. -/
def checkPair (price_data oscillator_data : List ℚ) (recent_osc_pivots : List ℕ)
    (divergence_type : String) (price_pivot1 price_pivot2 : ℕ) : Option Divergence :=
  match matchOscPivot recent_osc_pivots price_pivot1,
        matchOscPivot recent_osc_pivots price_pivot2 with
  | some osc_pivot1, some osc_pivot2 =>
      if divergence_type = "bullish" then
        if price_data.getD price_pivot2 0 < price_data.getD price_pivot1 0 ∧
            oscillator_data.getD osc_pivot2 0 > oscillator_data.getD osc_pivot1 0 then
          some ⟨"regular_bullish", price_pivot1, price_pivot2, osc_pivot1, osc_pivot2,
            0.8, "Regular bullish divergence detected"⟩
        else none
      else if divergence_type = "bearish" then
        if price_data.getD price_pivot2 0 > price_data.getD price_pivot1 0 ∧
            oscillator_data.getD osc_pivot2 0 < oscillator_data.getD osc_pivot1 0 then
          some ⟨"regular_bearish", price_pivot1, price_pivot2, osc_pivot1, osc_pivot2,
            0.8, "Regular bearish divergence detected"⟩
        else none
      else none
  | _, _ => none

/-- `detect_regular_divergence(price_data, oscillator_data,
price_pivots, osc_pivots, divergence_type)`: empty when either pivot
list has fewer than two entries; otherwise restrict both lists to
their last three pivots and test every consecutive price-pivot pair in
order, collecting each matched divergence. -/
def detect_regular_divergence (price_data oscillator_data : List ℚ)
    (price_pivots osc_pivots : List ℕ) (divergence_type : String) : List Divergence :=
  if price_pivots.length < 2 ∨ osc_pivots.length < 2 then []
  else
    let recent_price_pivots := price_pivots.drop (price_pivots.length - 3)
    let recent_osc_pivots := osc_pivots.drop (osc_pivots.length - 3)
    (List.zip recent_price_pivots recent_price_pivots.tail).filterMap
      (fun pq => checkPair price_data oscillator_data recent_osc_pivots
        divergence_type pq.1 pq.2)

/-- A concrete 24-bar price series whose lows step down at indices
4, 10, 16 (values 30, 20, 10). -/
def cexPrice : List ℚ :=
  [100, 100, 100, 60, 30, 60, 100, 100, 100, 50,
   20, 50, 100, 100, 100, 40, 10, 40, 100, 100,
   100, 100, 100, 100]

/-- A concrete 24-bar oscillator series whose lows step up at indices
4, 10, 16 (values 1, 2, 3). -/
def cexOsc : List ℚ :=
  [9, 9, 9, 5, 1, 5, 9, 9, 9, 6,
   2, 6, 9, 9, 9, 7, 3, 7, 9, 9,
   9, 9, 9, 9]

end EnhancedIndicators

namespace SignalDetectorService
/- Embedding of `src/trading_system/signal_detector_service.py`.  The
database of persisted signals is a list of rows; the analyzer call
`analyze_master_confluence` is an external effect, modelled as a
per-entry outcome that may raise (`Except.error`), return `None`, or
return an evaluation result. -/

open MasterConfluence

/-- One row of the `user_watchlists` table. -/
structure WatchlistEntry where
  symbol : String
  timeframe : String
  direction : TSystem
  deriving DecidableEq

/-- One persisted row of the `signals` table, restricted to the
columns the service reads or writes. -/
structure SignalRow where
  symbol : String
  timeframe : String
  timestamp : ℤ
  system : Option TSystem
  score : ℚ
  classification : String
  deriving DecidableEq

/-- The fields of an `analyze_master_confluence` result that
`scan_watchlists` and `save_signal` consume. -/
structure EvalResult where
  symbol : String
  timeframe : String
  timestamp : ℤ
  price : ℚ
  score : ℚ
  classification : String
  primary_system : Option TSystem
  deriving DecidableEq

/-- `signal_exists_recently(conn, symbol, timeframe, hours_window)`:
true when the `signals` table holds at least one row with the same
symbol and timeframe whose timestamp is at or after
`now - hours_window*3600`.  Only these three columns appear in the SQL
predicate. -/
def signal_exists_recently (db : List SignalRow) (symbol timeframe : String)
    (now hours_window : ℤ) : Bool :=
  decide (0 < db.countP (fun r =>
    r.symbol == symbol && r.timeframe == timeframe &&
      decide (now - hours_window * 3600 ≤ r.timestamp)))

/-- `save_signal`: insert one row built from the evaluation result. -/
def save_signal (db : List SignalRow) (r : EvalResult) : List SignalRow :=
  db ++ [⟨r.symbol, r.timeframe, r.timestamp, r.primary_system, r.score,
    r.classification⟩]

/-- The per-cycle counters of `scan_watchlists`. -/
structure ScanStats where
  scanned : ℕ
  signals_found : ℕ
  signals_saved : ℕ
  errors : List String
  deriving DecidableEq

/-- The evolving state of one scan cycle: the signals table plus the
cycle's counters. -/
structure ScanState where
  db : List SignalRow
  stats : ScanStats
  deriving DecidableEq

/-- The body of `scan_watchlists`' per-entry loop: count the entry,
catch an analyzer exception (recording it without touching the table),
skip empty results, filter by minimum score and watchlist direction,
suppress the signal when one exists within the 4-hour window, and
otherwise persist it. -/
def scan_step (min_score_display : ℚ) (now : ℤ) (st : ScanState)
    (entry : WatchlistEntry) (result : Except String (Option EvalResult)) : ScanState :=
  let st := { st with stats := { st.stats with scanned := st.stats.scanned + 1 } }
  match result with
  | .error e =>
      { st with stats := { st.stats with errors := st.stats.errors ++ [e] } }
  | .ok none => st
  | .ok (some r) =>
      if r.score < min_score_display then st
      else if r.primary_system ≠ some entry.direction then st
      else
        let st := { st with stats :=
          { st.stats with signals_found := st.stats.signals_found + 1 } }
        if signal_exists_recently st.db entry.symbol entry.timeframe now 4 then st
        else
          { st with
            db := save_signal st.db r,
            stats := { st.stats with signals_saved := st.stats.signals_saved + 1 } }

/-- `scan_watchlists`: fold the per-entry loop body over the watchlist
entries in order. -/
def scan_watchlists (min_score_display : ℚ) (now : ℤ)
    (evalEntry : WatchlistEntry → Except String (Option EvalResult))
    (entries : List WatchlistEntry) (st : ScanState) : ScanState :=
  entries.foldl (fun s e => scan_step min_score_display now s e (evalEntry e)) st

/-- A sample watchlist entry, used as a concrete instantiation. -/
def sampleEntry : WatchlistEntry := ⟨"BTC", "1h", TSystem.wind_catcher⟩

/-- A qualifying evaluation at timestamp 0. -/
def sampleEval1 : EvalResult :=
  ⟨"BTC", "1h", 0, 100, 2, "VERY GOOD", some TSystem.wind_catcher⟩

/-- A qualifying evaluation at timestamp 20000 (more than 4 hours
after `sampleEval1`). -/
def sampleEval2 : EvalResult :=
  ⟨"BTC", "1h", 20000, 100, 2, "VERY GOOD", some TSystem.wind_catcher⟩

/-- A scan state with an empty signals table. -/
def emptyState : ScanState := ⟨[], ⟨0, 0, 0, []⟩⟩

/-- A persisted bullish signal row at timestamp 0. -/
def sampleRow : SignalRow := ⟨"BTC", "1h", 0, some TSystem.wind_catcher, 2, "VERY GOOD"⟩

/-- A scan state whose table already holds `sampleRow`. -/
def oneRowState : ScanState := ⟨[sampleRow], ⟨1, 1, 1, []⟩⟩

/-- A persisted BEARISH signal row at timestamp 0. -/
def sampleBearishRow : SignalRow :=
  ⟨"BTC", "1h", 0, some TSystem.river_turn, 2, "VERY GOOD"⟩

/-- A scan state whose table already holds `sampleBearishRow`. -/
def bearishDbState : ScanState := ⟨[sampleBearishRow], ⟨0, 0, 0, []⟩⟩

end SignalDetectorService

section IndicatorTheorems

open Indicators

/-- Summing an elementwise product of two lists equals the index-based
sum over the common length. -/
theorem zipWith_mul_sum_getD : ∀ (l₁ l₂ : List ℚ),
    (List.zipWith (fun x w => x * w) l₁ l₂).sum =
      Finset.sum (Finset.range (min l₁.length l₂.length))
        (fun i => l₁.getD i 0 * l₂.getD i 0) := by
  intro l₁
  induction l₁ with
  | nil => intro l₂; simp
  | cons x xs ih =>
      intro l₂
      cases l₂ with
      | nil => simp
      | cons y ys =>
          have hmin : min (x :: xs).length (y :: ys).length =
              min xs.length ys.length + 1 := by
            simp [Nat.succ_min_succ]
          rw [List.zipWith_cons_cons, List.sum_cons, ih ys, hmin,
            Finset.sum_range_succ']
          simp [List.getD]
          ring

/-- The sum of `f` over `List.range n` equals the `Finset.range` sum. -/
theorem sum_map_range (f : ℕ → ℚ) : ∀ n : ℕ,
    ((List.range n).map f).sum = Finset.sum (Finset.range n) f := by
  intro n
  induction n with
  | zero => simp
  | succ m ih =>
      rw [List.range_succ, List.map_append, List.sum_append,
        Finset.sum_range_succ, ih]
      simp

/-- Reading the `i`-th entry of a mapped range, for `i` in range. -/
theorem getD_map_range (f : ℕ → ℚ) (p i : ℕ) (h : i < p) :
    ((List.range p).map f).getD i 0 = f i := by
  rw [List.getD_eq_getElem?_getD, List.getElem?_map, List.getElem?_range h]
  rfl

/-- C7: `calculate_wma` is undefined exactly when the series is shorter
than the period; otherwise it equals the spec's weighted-average
formula (weight `i` on the `i`-th oldest value of the trailing window,
divided by the weight sum); and on the fixture `[1,2,3,4,5]` with
period 3 it equals 26/6 = 13/3. -/
theorem calculate_wma_matches_spec_formula (data : List ℚ) (p : ℕ) (hp : 0 < p) :
    (calculate_wma data p = none ↔ data.length < p) ∧
    (p ≤ data.length → calculate_wma data p = some (wmaSpecFormula data p)) ∧
    calculate_wma [1, 2, 3, 4, 5] 3 = some (13 / 3) := by
  refine ⟨?_, ?_, ?_⟩
  · simp only [calculate_wma]
    split_ifs with h <;> simp [h]
  · intro hle
    have hnl : ¬ data.length < p := not_lt.mpr hle
    simp only [calculate_wma, wmaSpecFormula, if_neg hnl]
    have hrecent : (data.drop (data.length - p)).length = p := by
      simp only [List.length_drop]
      omega
    have hw : ((List.range p).map (fun i : ℕ => ((i : ℚ) + 1))).length = p := by simp
    rw [zipWith_mul_sum_getD, sum_map_range, hrecent, hw, min_self]
    congr 1
    congr 1
    apply Finset.sum_congr rfl
    intro i hi
    rw [getD_map_range (fun i : ℕ => ((i : ℚ) + 1)) p i (Finset.mem_range.mp hi)]
    ring
  · simp [calculate_wma, List.range_succ]
    norm_num

/-- Witness for `calculate_wma_matches_spec_formula` at `p = 3`,
`data = [1,2,3,4,5]`. -/
theorem calculate_wma_matches_spec_formula_witness :
    (calculate_wma [1, 2, 3, 4, 5] 3 = none ↔ ([1, 2, 3, 4, 5] : List ℚ).length < 3) ∧
    (3 ≤ ([1, 2, 3, 4, 5] : List ℚ).length →
      calculate_wma [1, 2, 3, 4, 5] 3 = some (wmaSpecFormula [1, 2, 3, 4, 5] 3)) ∧
    calculate_wma [1, 2, 3, 4, 5] 3 = some (13 / 3) :=
  calculate_wma_matches_spec_formula [1, 2, 3, 4, 5] 3 (by norm_num)

/-- C1: the scalar `calculate_hull_ma` of `indicators.py` returns
exactly the unsmoothed `2*WMA(period/2) - WMA(period)` value, skipping
the final `WMA(.., sqrt(period))` smoothing pass that its own docstring
formula and `calculate_hull_ma_series` prescribe: on the monotonically
increasing series `1..30` with period 16 (so that
`len(series) > period + sqrt(period)`), the scalar function returns
`91/3` — the raw value `2*WMA(8) - WMA(16)` — while the smoothed series
ends at `88/3 ≠ 91/3`. -/
theorem hull_ma_scalar_returns_unsmoothed_raw :
    monoSeries.length = 30 ∧ 30 > 16 + Nat.sqrt 16 ∧
    calculate_wma monoSeries 8 = some (83 / 3) ∧
    calculate_wma monoSeries 16 = some 25 ∧
    calculate_hull_ma monoSeries 16 = some (2 * (83 / 3) - 25) ∧
    (calculate_hull_ma_series monoSeries 16).getLast? = some (some (88 / 3)) ∧
    (2 * ((83 : ℚ) / 3) - 25) ≠ 88 / 3 := by
  refine ⟨by simp [monoSeries], by norm_num [Nat.sqrt], ?_, ?_, ?_, ?_, by norm_num⟩
  · simp [calculate_wma, monoSeries, List.range_succ]
    norm_num
  · simp [calculate_wma, monoSeries, List.range_succ]
    norm_num
  · simp [calculate_hull_ma, calculate_wma, monoSeries, List.range_succ]
    norm_num
  · simp [calculate_hull_ma_series, calculate_wma_series, windowDot, monoSeries,
      List.range_succ]
    norm_num [List.range_succ]
    intro h
    rcases h with h | h | h | h <;> simp at h

end IndicatorTheorems

section ConfluenceTheorems

open MasterConfluence

/-- A signal loop adds exactly the strengths of its signals to the
running score. -/
theorem addSignals_score (l : List IndicatorSignal) (st : AggState) :
    (addSignals st l).total_score =
      st.total_score + (l.map (fun s => s.strength)).sum := by
  induction l generalizing st with
  | nil => simp [addSignals]
  | cons a as ih =>
      simp only [addSignals, List.foldl_cons] at *
      rw [ih]
      simp [addSignal]
      ring

/-- A signal loop leaves an already-set `primary_system` unchanged and
otherwise sets it from the first signal of the list. -/
theorem addSignals_primary (l : List IndicatorSignal) (st : AggState) :
    (addSignals st l).primary_system =
      (match st.primary_system with
       | some x => some x
       | none => l.head?.map (fun s => s.system)) := by
  induction l generalizing st with
  | nil => cases h : st.primary_system <;> simp [addSignals, h]
  | cons a as ih =>
      simp only [addSignals, List.foldl_cons] at *
      rw [ih]
      cases h : st.primary_system <;> simp [addSignal, h]

/-- The classification string of `calculate_master_confluence` is the
ladder applied to its own score. -/
theorem confluence_classification_eq
    (hull ao alligator ichimoku : List IndicatorSignal)
    (volume : List VolumeSignal) :
    (calculate_master_confluence hull ao alligator ichimoku volume).classification =
      (classify (calculate_master_confluence hull ao alligator ichimoku volume).score).1 :=
  rfl

/-- The ladder's closed-on-the-low characterization. -/
theorem classify_spec (s : ℚ) :
    ((classify s).1 = "PERFECT" ↔ 3.0 ≤ s) ∧
    ((classify s).1 = "EXCELLENT" ↔ 2.5 ≤ s ∧ s < 3.0) ∧
    ((classify s).1 = "VERY GOOD" ↔ 1.8 ≤ s ∧ s < 2.5) ∧
    ((classify s).1 = "GOOD" ↔ 1.2 ≤ s ∧ s < 1.8) ∧
    ((classify s).1 = "INTERESTING" ↔ 0.8 ≤ s ∧ s < 1.2) ∧
    ((classify s).1 = "WEAK" ↔ s < 0.8) := by
  unfold classify
  split_ifs with h1 h2 h3 h4 h5 <;>
    refine ⟨?_, ?_, ?_, ?_, ?_, ?_⟩ <;> simp_all
  all_goals intros
  all_goals linarith

/-- C2: with at least one volume reading, the confluence score is the
exact sum of every event strength over Hull, AO, Alligator and
Ichimoku, plus the latest volume reading's strength, plus 0.3 exactly
when the latest volume ratio is at least 1.5; and the classification
is the closed-on-the-low ladder over that score. -/
theorem master_confluence_score_and_ladder
    (hull ao alligator ichimoku : List IndicatorSignal)
    (volume : List VolumeSignal) (latest : VolumeSignal)
    (hv : volume.getLast? = some latest) :
    (calculate_master_confluence hull ao alligator ichimoku volume).score =
      ((hull ++ ao ++ alligator ++ ichimoku).map (fun s => s.strength)).sum
        + latest.strength + (if 1.5 ≤ latest.ratio then 0.3 else 0) ∧
    ((calculate_master_confluence hull ao alligator ichimoku volume).classification
        = "PERFECT"
      ↔ 3.0 ≤ (calculate_master_confluence hull ao alligator ichimoku volume).score) ∧
    ((calculate_master_confluence hull ao alligator ichimoku volume).classification
        = "EXCELLENT"
      ↔ 2.5 ≤ (calculate_master_confluence hull ao alligator ichimoku volume).score ∧
        (calculate_master_confluence hull ao alligator ichimoku volume).score < 3.0) ∧
    ((calculate_master_confluence hull ao alligator ichimoku volume).classification
        = "VERY GOOD"
      ↔ 1.8 ≤ (calculate_master_confluence hull ao alligator ichimoku volume).score ∧
        (calculate_master_confluence hull ao alligator ichimoku volume).score < 2.5) ∧
    ((calculate_master_confluence hull ao alligator ichimoku volume).classification
        = "GOOD"
      ↔ 1.2 ≤ (calculate_master_confluence hull ao alligator ichimoku volume).score ∧
        (calculate_master_confluence hull ao alligator ichimoku volume).score < 1.8) ∧
    ((calculate_master_confluence hull ao alligator ichimoku volume).classification
        = "INTERESTING"
      ↔ 0.8 ≤ (calculate_master_confluence hull ao alligator ichimoku volume).score ∧
        (calculate_master_confluence hull ao alligator ichimoku volume).score < 1.2) ∧
    ((calculate_master_confluence hull ao alligator ichimoku volume).classification
        = "WEAK"
      ↔ (calculate_master_confluence hull ao alligator ichimoku volume).score < 0.8) := by
  have hladder := classify_spec
    (calculate_master_confluence hull ao alligator ichimoku volume).score
  refine ⟨?_, (confluence_classification_eq hull ao alligator ichimoku volume ▸
      hladder.1),
    (confluence_classification_eq hull ao alligator ichimoku volume ▸ hladder.2.1),
    (confluence_classification_eq hull ao alligator ichimoku volume ▸ hladder.2.2.1),
    (confluence_classification_eq hull ao alligator ichimoku volume ▸ hladder.2.2.2.1),
    (confluence_classification_eq hull ao alligator ichimoku volume ▸
      hladder.2.2.2.2.1),
    (confluence_classification_eq hull ao alligator ichimoku volume ▸
      hladder.2.2.2.2.2)⟩
  show (calculate_master_confluence hull ao alligator ichimoku volume).score = _
  simp only [calculate_master_confluence, hv]
  rw [addSignals_score, addSignals_score, addSignals_score, addSignals_score]
  simp only [List.map_append, List.sum_append]
  split_ifs with h <;> simp [h]

/-- Witness for `master_confluence_score_and_ladder`: one Hull event
of strength 0.7, one volume reading of strength 0.8 and ratio 2.2
(score 0.7 + 0.8 + 0.3 = 1.8, classification VERY GOOD). -/
theorem master_confluence_score_and_ladder_witness :
    (calculate_master_confluence [sampleHullSignal] [] [] [] [sampleVolumeSignal]).score =
      (([sampleHullSignal] ++ [] ++ [] ++ []).map (fun s : IndicatorSignal => s.strength)).sum
        + sampleVolumeSignal.strength
        + (if 1.5 ≤ sampleVolumeSignal.ratio then 0.3 else 0) ∧
    ((calculate_master_confluence [sampleHullSignal] [] [] []
        [sampleVolumeSignal]).classification = "PERFECT"
      ↔ 3.0 ≤ (calculate_master_confluence [sampleHullSignal] [] [] []
        [sampleVolumeSignal]).score) ∧
    ((calculate_master_confluence [sampleHullSignal] [] [] []
        [sampleVolumeSignal]).classification = "EXCELLENT"
      ↔ 2.5 ≤ (calculate_master_confluence [sampleHullSignal] [] [] []
        [sampleVolumeSignal]).score ∧
        (calculate_master_confluence [sampleHullSignal] [] [] []
        [sampleVolumeSignal]).score < 3.0) ∧
    ((calculate_master_confluence [sampleHullSignal] [] [] []
        [sampleVolumeSignal]).classification = "VERY GOOD"
      ↔ 1.8 ≤ (calculate_master_confluence [sampleHullSignal] [] [] []
        [sampleVolumeSignal]).score ∧
        (calculate_master_confluence [sampleHullSignal] [] [] []
        [sampleVolumeSignal]).score < 2.5) ∧
    ((calculate_master_confluence [sampleHullSignal] [] [] []
        [sampleVolumeSignal]).classification = "GOOD"
      ↔ 1.2 ≤ (calculate_master_confluence [sampleHullSignal] [] [] []
        [sampleVolumeSignal]).score ∧
        (calculate_master_confluence [sampleHullSignal] [] [] []
        [sampleVolumeSignal]).score < 1.8) ∧
    ((calculate_master_confluence [sampleHullSignal] [] [] []
        [sampleVolumeSignal]).classification = "INTERESTING"
      ↔ 0.8 ≤ (calculate_master_confluence [sampleHullSignal] [] [] []
        [sampleVolumeSignal]).score ∧
        (calculate_master_confluence [sampleHullSignal] [] [] []
        [sampleVolumeSignal]).score < 1.2) ∧
    ((calculate_master_confluence [sampleHullSignal] [] [] []
        [sampleVolumeSignal]).classification = "WEAK"
      ↔ (calculate_master_confluence [sampleHullSignal] [] [] []
        [sampleVolumeSignal]).score < 0.8) :=
  master_confluence_score_and_ladder [sampleHullSignal] [] [] []
    [sampleVolumeSignal] sampleVolumeSignal rfl

/-- C3: `primary_system` is the system of the first event in the fixed
traversal order Hull, AO, Alligator, Ichimoku, and `none` when all
four event lists are empty. -/
theorem primary_system_is_first_event
    (hull ao alligator ichimoku : List IndicatorSignal)
    (volume : List VolumeSignal) :
    (calculate_master_confluence hull ao alligator ichimoku volume).primary_system =
      ((hull ++ ao ++ alligator ++ ichimoku).head?).map (fun s => s.system) ∧
    (calculate_master_confluence [] [] [] [] volume).primary_system = none := by
  constructor
  · show (addSignals (addSignals (addSignals (addSignals ⟨0, [], none, 0⟩ hull)
        ao) alligator) ichimoku).primary_system = _
    rw [addSignals_primary, addSignals_primary, addSignals_primary, addSignals_primary]
    cases hull <;> cases ao <;> cases alligator <;> cases ichimoku <;> simp
  · show (addSignals (addSignals (addSignals (addSignals ⟨0, [], none, 0⟩ [])
        []) []) []).primary_system = none
    simp [addSignals]

end ConfluenceTheorems

section AlligatorTheorems

open AlligatorAnalyzer

/-- C8: with the three lines defined and the maximum line positive,
the state is `sleeping` exactly when the relative spread
`(max-min)/max` is at most the 0.15% threshold, regardless of line
ordering; otherwise the state is `awake` with direction `bullish` for
`lips > teeth > jaw`, `bearish` for `lips < teeth < jaw`, and `mixed`
otherwise. -/
theorem alligator_state_classification (j t l : ℚ)
    (hmax : 0 < max j (max t l)) :
    (((max j (max t l) - min j (min t l)) / max j (max t l)) ≤ 0.15 / 100 →
      determine_alligator_state (some j) (some t) (some l) 0.15 =
        ("sleeping",
          ((max j (max t l) - min j (min t l)) / max j (max t l)) * 100,
          "consolidation")) ∧
    (¬ (((max j (max t l) - min j (min t l)) / max j (max t l)) ≤ 0.15 / 100) →
      (determine_alligator_state (some j) (some t) (some l) 0.15).1 = "awake" ∧
      ((determine_alligator_state (some j) (some t) (some l) 0.15).2.2 = "bullish"
        ↔ l > t ∧ t > j) ∧
      ((determine_alligator_state (some j) (some t) (some l) 0.15).2.2 = "bearish"
        ↔ l < t ∧ t < j) ∧
      ((determine_alligator_state (some j) (some t) (some l) 0.15).2.2 = "mixed"
        ↔ ¬ (l > t ∧ t > j) ∧ ¬ (l < t ∧ t < j))) := by
  have hne : max j (max t l) ≠ 0 := ne_of_gt hmax
  have hequiv :
      (((max j (max t l) - min j (min t l)) / max j (max t l)) ≤ 0.15 / 100) ↔
        (((max j (max t l) - min j (min t l)) / max j (max t l)) * 100 ≤ 0.15) := by
    constructor <;> intro h <;> linarith
  constructor
  · intro h
    simp only [determine_alligator_state, if_neg hne, if_pos (hequiv.mp h)]
  · intro h
    have h' :
        ¬ (((max j (max t l) - min j (min t l)) / max j (max t l)) * 100 ≤ 0.15) :=
      fun hc => h (hequiv.mpr hc)
    simp only [determine_alligator_state, if_neg hne, if_neg h']
    split_ifs with hb hbe <;> simp_all
    all_goals intros
    all_goals linarith

/-- Witness for `alligator_state_classification`: equal lines
`(1,1,1)` sleep; lines `(1,2,3)` wake up bullish. -/
theorem alligator_state_classification_witness :
    determine_alligator_state (some 1) (some 1) (some 1) 0.15 =
      ("sleeping",
        ((max 1 (max 1 1) - min 1 (min 1 1)) / max 1 (max 1 (1 : ℚ))) * 100,
        "consolidation") ∧
    ((determine_alligator_state (some 1) (some 2) (some 3) 0.15).1 = "awake" ∧
      ((determine_alligator_state (some 1) (some 2) (some 3) 0.15).2.2 = "bullish"
        ↔ (3 : ℚ) > 2 ∧ (2 : ℚ) > 1) ∧
      ((determine_alligator_state (some 1) (some 2) (some 3) 0.15).2.2 = "bearish"
        ↔ (3 : ℚ) < 2 ∧ (2 : ℚ) < 1) ∧
      ((determine_alligator_state (some 1) (some 2) (some 3) 0.15).2.2 = "mixed"
        ↔ ¬ ((3 : ℚ) > 2 ∧ (2 : ℚ) > 1) ∧ ¬ ((3 : ℚ) < 2 ∧ (2 : ℚ) < 1))) :=
  ⟨(alligator_state_classification 1 1 1 (by norm_num)).1
      (by norm_num),
   (alligator_state_classification 1 2 3
      (by rw [show max (1:ℚ) (max 2 3) = 3 by norm_num [max_def]]; norm_num)).2
      (by rw [show max (1:ℚ) (max 2 3) = 3 by norm_num [max_def],
              show min (1:ℚ) (min 2 3) = 1 by norm_num [min_def]]
          norm_num)⟩

/-- C10: `determine_alligator_state` answers `('unknown', 0.0, 'none')`
whenever a line is NaN or the maximum line is zero, and the spread
ratio `(max-min)/max` is computed only in the remaining case, where
the divisor is nonzero. -/
theorem alligator_state_guard (jaw teeth lips : Option ℚ) (th : ℚ) (j t l : ℚ) :
    ((jaw = none ∨ teeth = none ∨ lips = none) →
      determine_alligator_state jaw teeth lips th = ("unknown", 0, "none")) ∧
    (max j (max t l) = 0 →
      determine_alligator_state (some j) (some t) (some l) th =
        ("unknown", 0, "none")) ∧
    (determine_alligator_state (some j) (some t) (some l) th ≠
        ("unknown", 0, "none") →
      max j (max t l) ≠ 0 ∧
      (determine_alligator_state (some j) (some t) (some l) th).2.1 =
        ((max j (max t l) - min j (min t l)) / max j (max t l)) * 100) := by
  refine ⟨?_, ?_, ?_⟩
  · intro h
    rcases h with h | h | h <;> subst h
    · cases teeth <;> cases lips <;> rfl
    · cases jaw <;> cases lips <;> rfl
    · cases jaw <;> cases teeth <;> rfl
  · intro h
    simp only [determine_alligator_state, if_pos h]
  · intro hne
    by_cases h : max j (max t l) = 0
    · exact absurd (by simp only [determine_alligator_state, if_pos h]) hne
    · refine ⟨h, ?_⟩
      simp only [determine_alligator_state, if_neg h]
      split_ifs <;> rfl

/-- Witness for `alligator_state_guard`: a NaN jaw, an all-zero line
triple, and the defined triple `(2,1,1)` whose spread is computed with
nonzero divisor. -/
theorem alligator_state_guard_witness :
    determine_alligator_state none (some 1) (some 1) 0.15 =
      ("unknown", 0, "none") ∧
    determine_alligator_state (some 0) (some 0) (some 0) 0.15 =
      ("unknown", 0, "none") ∧
    (max 2 (max 1 1) ≠ (0 : ℚ) ∧
      (determine_alligator_state (some 2) (some 1) (some 1) 0.15).2.1 =
        ((max 2 (max 1 1) - min 2 (min 1 1)) / max 2 (max 1 (1 : ℚ))) * 100) :=
  ⟨(alligator_state_guard none (some 1) (some 1) 0.15 0 0 0).1 (Or.inl rfl),
   (alligator_state_guard (some 0) (some 0) (some 0) 0.15 0 0 0).2.1 (by simp),
   (alligator_state_guard (some 2) (some 1) (some 1) 0.15 2 1 1).2.2
     (by simp only [determine_alligator_state]
         norm_num [max_def, min_def])⟩

end AlligatorTheorems

section AODivergenceTheorems

open EnhancedIndicators

/-- A successful oscillator-pivot match comes from the scanned list
and lies within the 5-bar tolerance. -/
theorem matchOscPivot_spec : ∀ (ops : List ℕ) (target o : ℕ) (acc : Option ℕ),
    ops.foldl
      (fun acc (osc_pivot : ℕ) =>
        if ((osc_pivot : ℤ) - (target : ℤ)).natAbs ≤ 5 then some osc_pivot else acc)
      acc = some o →
    acc = some o ∨ (o ∈ ops ∧ ((o : ℤ) - (target : ℤ)).natAbs ≤ 5) := by
  intro ops
  induction ops with
  | nil => intro target o acc h; exact Or.inl h
  | cons p ps ih =>
      intro target o acc h
      simp only [List.foldl_cons] at h
      rcases ih target o _ h with h' | h'
      · by_cases hc : ((p : ℤ) - (target : ℤ)).natAbs ≤ 5
        · rw [if_pos hc] at h'
          have hp : p = o := Option.some_inj.mp h'
          subst hp
          exact Or.inr ⟨List.mem_cons_self p ps, hc⟩
        · rw [if_neg hc] at h'
          exact Or.inl h'
      · exact Or.inr ⟨List.mem_cons_of_mem p h'.1, h'.2⟩

/-- A produced divergence records its pivot pair, carries strength
exactly 0.8, satisfies the direction's divergence condition, and its
oscillator pivots come from the scanned list within tolerance. -/
theorem checkPair_spec (price osc : List ℚ) (rops : List ℕ) (ty : String)
    (p1 p2 : ℕ) (d : Divergence)
    (h : checkPair price osc rops ty p1 p2 = some d) :
    d.strength = 0.8 ∧ d.price_pivot1 = p1 ∧ d.price_pivot2 = p2 ∧
    d.osc_pivot1 ∈ rops ∧ d.osc_pivot2 ∈ rops ∧
    ((d.osc_pivot1 : ℤ) - (p1 : ℤ)).natAbs ≤ 5 ∧
    ((d.osc_pivot2 : ℤ) - (p2 : ℤ)).natAbs ≤ 5 ∧
    (ty = "bullish" → d.type = "regular_bullish" ∧
      price.getD p2 0 < price.getD p1 0 ∧
      osc.getD d.osc_pivot1 0 < osc.getD d.osc_pivot2 0) ∧
    (ty = "bearish" → d.type = "regular_bearish" ∧
      price.getD p1 0 < price.getD p2 0 ∧
      osc.getD d.osc_pivot2 0 < osc.getD d.osc_pivot1 0) := by
  unfold checkPair at h
  cases h1 : matchOscPivot rops p1 with
  | none => rw [h1] at h; cases h
  | some o1 =>
      cases h2 : matchOscPivot rops p2 with
      | none => rw [h1, h2] at h; cases h
      | some o2 =>
          rw [h1, h2] at h
          dsimp only at h
          have ho1 := matchOscPivot_spec rops p1 o1 none h1
          have ho2 := matchOscPivot_spec rops p2 o2 none h2
          simp only [reduceCtorEq, false_or] at ho1 ho2
          by_cases hty : ty = "bullish"
          · rw [if_pos hty] at h
            split_ifs at h with hcond
            cases h
            refine ⟨rfl, rfl, rfl, ho1.1, ho2.1, ho1.2, ho2.2, ?_, ?_⟩
            · intro
              exact ⟨rfl, hcond.1, hcond.2⟩
            · intro hb
              rw [hty] at hb
              simp at hb
          · rw [if_neg hty] at h
            by_cases hty2 : ty = "bearish"
            · rw [if_pos hty2] at h
              split_ifs at h with hcond
              cases h
              refine ⟨rfl, rfl, rfl, ho1.1, ho2.1, ho1.2, ho2.2, ?_, ?_⟩
              · intro hb
                rw [hty2] at hb
                simp at hb
              · intro
                exact ⟨rfl, hcond.1, hcond.2⟩
            · rw [if_neg hty2] at h
              cases h

/-- A pair drawn from `zip l l.tail` is a consecutive pair of `l`. -/
theorem mem_zip_tail_consecutive : ∀ (l : List ℕ) (a b : ℕ),
    (a, b) ∈ List.zip l l.tail →
    ∃ i, l.get? i = some a ∧ l.get? (i + 1) = some b := by
  intro l
  induction l with
  | nil => intro a b h; cases h
  | cons x xs ih =>
      intro a b h
      cases xs with
      | nil => cases h
      | cons y ys =>
          simp only [List.tail_cons, List.zip_cons_cons, List.mem_cons] at h
          rcases h with h | h
          · refine ⟨0, ?_, ?_⟩ <;> simp_all [Prod.ext_iff]
          · obtain ⟨i, hi, hi'⟩ := ih a b h
            exact ⟨i + 1, hi, hi'⟩

/-- C5 counterexample: on a concrete series whose last three price
pivot-lows step down while the matched AO pivot-lows step up, one
evaluation of `detect_regular_divergence` reports TWO bullish
divergences (one per consecutive pivot pair), so the detector does not
report only the most recent matched pair, nor at most one divergence
per direction. -/
theorem ao_divergence_two_bullish_reports :
    detect_regular_divergence cexPrice cexOsc [4, 10, 16] [4, 10, 16] "bullish" =
      [⟨"regular_bullish", 4, 10, 4, 10, 0.8, "Regular bullish divergence detected"⟩,
       ⟨"regular_bullish", 10, 16, 10, 16, 0.8,
         "Regular bullish divergence detected"⟩] ∧
    ¬ (detect_regular_divergence cexPrice cexOsc
        [4, 10, 16] [4, 10, 16] "bullish").length ≤ 1 := by
  have h : detect_regular_divergence cexPrice cexOsc [4, 10, 16] [4, 10, 16]
      "bullish" =
      [⟨"regular_bullish", 4, 10, 4, 10, 0.8, "Regular bullish divergence detected"⟩,
       ⟨"regular_bullish", 10, 16, 10, 16, 0.8,
         "Regular bullish divergence detected"⟩] := by
    simp [detect_regular_divergence, checkPair, matchOscPivot, cexPrice, cexOsc]
    norm_num [List.filterMap_cons]
  refine ⟨h, ?_⟩
  rw [h]
  simp

/-- C5 (amended): each call reports at most two divergences — one per
consecutive pair among the last three price pivots — and every
reported divergence has strength exactly 0.8, records a consecutive
pair of the last three price pivots, matches oscillator pivots from
the last three within the ±5-bar tolerance, and satisfies the
direction's lower-low/higher-low condition. -/
theorem ao_divergence_amended (price osc : List ℚ) (pp op : List ℕ) (ty : String) :
    (detect_regular_divergence price osc pp op ty).length ≤ 2 ∧
    ∀ d ∈ detect_regular_divergence price osc pp op ty,
      d.strength = 0.8 ∧
      (∃ i, (pp.drop (pp.length - 3)).get? i = some d.price_pivot1 ∧
        (pp.drop (pp.length - 3)).get? (i + 1) = some d.price_pivot2) ∧
      d.osc_pivot1 ∈ op.drop (op.length - 3) ∧
      d.osc_pivot2 ∈ op.drop (op.length - 3) ∧
      ((d.osc_pivot1 : ℤ) - (d.price_pivot1 : ℤ)).natAbs ≤ 5 ∧
      ((d.osc_pivot2 : ℤ) - (d.price_pivot2 : ℤ)).natAbs ≤ 5 ∧
      (ty = "bullish" → d.type = "regular_bullish" ∧
        price.getD d.price_pivot2 0 < price.getD d.price_pivot1 0 ∧
        osc.getD d.osc_pivot1 0 < osc.getD d.osc_pivot2 0) ∧
      (ty = "bearish" → d.type = "regular_bearish" ∧
        price.getD d.price_pivot1 0 < price.getD d.price_pivot2 0 ∧
        osc.getD d.osc_pivot2 0 < osc.getD d.osc_pivot1 0) := by
  unfold detect_regular_divergence
  split_ifs with hguard
  · simp
  · constructor
    · refine le_trans (List.length_filterMap_le _ _) ?_
      rw [List.length_zip]
      simp only [List.length_tail, List.length_drop]
      omega
    · intro d hd
      rw [List.mem_filterMap] at hd
      obtain ⟨pq, hmem, hck⟩ := hd
      obtain ⟨p1, p2⟩ := pq
      obtain ⟨hs, hp1, hp2, ho1m, ho2m, ht1, ht2, hbul, hbear⟩ :=
        checkPair_spec price osc _ ty p1 p2 d hck
      subst hp1
      subst hp2
      obtain ⟨i, hi1, hi2⟩ := mem_zip_tail_consecutive _ _ _ hmem
      exact ⟨hs, ⟨i, hi1, hi2⟩, ho1m, ho2m, ht1, ht2, hbul, hbear⟩

/-- Witness for `ao_divergence_amended` at the concrete series and the
first reported divergence. -/
theorem ao_divergence_amended_witness :
    (detect_regular_divergence cexPrice cexOsc
      [4, 10, 16] [4, 10, 16] "bullish").length ≤ 2 ∧
    ((⟨"regular_bullish", 4, 10, 4, 10, 0.8,
        "Regular bullish divergence detected"⟩ : Divergence).strength = 0.8 ∧
      (∃ i, (([4, 10, 16] : List ℕ).drop (([4, 10, 16] : List ℕ).length - 3)).get? i =
          some (⟨"regular_bullish", 4, 10, 4, 10, 0.8,
            "Regular bullish divergence detected"⟩ : Divergence).price_pivot1 ∧
        (([4, 10, 16] : List ℕ).drop (([4, 10, 16] : List ℕ).length - 3)).get? (i + 1) =
          some (⟨"regular_bullish", 4, 10, 4, 10, 0.8,
            "Regular bullish divergence detected"⟩ : Divergence).price_pivot2) ∧
      (⟨"regular_bullish", 4, 10, 4, 10, 0.8,
        "Regular bullish divergence detected"⟩ : Divergence).osc_pivot1 ∈
        ([4, 10, 16] : List ℕ).drop (([4, 10, 16] : List ℕ).length - 3) ∧
      (⟨"regular_bullish", 4, 10, 4, 10, 0.8,
        "Regular bullish divergence detected"⟩ : Divergence).osc_pivot2 ∈
        ([4, 10, 16] : List ℕ).drop (([4, 10, 16] : List ℕ).length - 3) ∧
      (((⟨"regular_bullish", 4, 10, 4, 10, 0.8,
          "Regular bullish divergence detected"⟩ : Divergence).osc_pivot1 : ℤ) -
        ((⟨"regular_bullish", 4, 10, 4, 10, 0.8,
          "Regular bullish divergence detected"⟩ : Divergence).price_pivot1 : ℤ)).natAbs
        ≤ 5 ∧
      (((⟨"regular_bullish", 4, 10, 4, 10, 0.8,
          "Regular bullish divergence detected"⟩ : Divergence).osc_pivot2 : ℤ) -
        ((⟨"regular_bullish", 4, 10, 4, 10, 0.8,
          "Regular bullish divergence detected"⟩ : Divergence).price_pivot2 : ℤ)).natAbs
        ≤ 5 ∧
      (("bullish" : String) = "bullish" →
        (⟨"regular_bullish", 4, 10, 4, 10, 0.8,
          "Regular bullish divergence detected"⟩ : Divergence).type =
            "regular_bullish" ∧
        cexPrice.getD (⟨"regular_bullish", 4, 10, 4, 10, 0.8,
          "Regular bullish divergence detected"⟩ : Divergence).price_pivot2 0 <
          cexPrice.getD (⟨"regular_bullish", 4, 10, 4, 10, 0.8,
            "Regular bullish divergence detected"⟩ : Divergence).price_pivot1 0 ∧
        cexOsc.getD (⟨"regular_bullish", 4, 10, 4, 10, 0.8,
          "Regular bullish divergence detected"⟩ : Divergence).osc_pivot1 0 <
          cexOsc.getD (⟨"regular_bullish", 4, 10, 4, 10, 0.8,
            "Regular bullish divergence detected"⟩ : Divergence).osc_pivot2 0) ∧
      (("bullish" : String) = "bearish" →
        (⟨"regular_bullish", 4, 10, 4, 10, 0.8,
          "Regular bullish divergence detected"⟩ : Divergence).type =
            "regular_bearish" ∧
        cexPrice.getD (⟨"regular_bullish", 4, 10, 4, 10, 0.8,
          "Regular bullish divergence detected"⟩ : Divergence).price_pivot1 0 <
          cexPrice.getD (⟨"regular_bullish", 4, 10, 4, 10, 0.8,
            "Regular bullish divergence detected"⟩ : Divergence).price_pivot2 0 ∧
        cexOsc.getD (⟨"regular_bullish", 4, 10, 4, 10, 0.8,
          "Regular bullish divergence detected"⟩ : Divergence).osc_pivot2 0 <
          cexOsc.getD (⟨"regular_bullish", 4, 10, 4, 10, 0.8,
            "Regular bullish divergence detected"⟩ : Divergence).osc_pivot1 0)) :=
  ⟨(ao_divergence_amended cexPrice cexOsc [4, 10, 16] [4, 10, 16] "bullish").1,
   (ao_divergence_amended cexPrice cexOsc [4, 10, 16] [4, 10, 16] "bullish").2
     ⟨"regular_bullish", 4, 10, 4, 10, 0.8, "Regular bullish divergence detected"⟩
     (by simp [detect_regular_divergence, checkPair, matchOscPivot, cexPrice, cexOsc]
         norm_num [List.filterMap_cons])⟩

end AODivergenceTheorems

section SignalDetectorTheorems

open MasterConfluence SignalDetectorService

/-- Any stored row for the same symbol and timeframe whose timestamp
is inside the window makes `signal_exists_recently` answer true; the
row's other columns play no part. -/
theorem signal_exists_recently_of_mem (db : List SignalRow) (sym tf : String)
    (now hw : ℤ) (row : SignalRow) (hmem : row ∈ db) (hsym : row.symbol = sym)
    (htf : row.timeframe = tf) (hts : now - hw * 3600 ≤ row.timestamp) :
    signal_exists_recently db sym tf now hw = true := by
  unfold signal_exists_recently
  simp only [decide_eq_true_eq]
  rw [List.countP_pos_iff]
  refine ⟨row, hmem, ?_⟩
  simp [hsym, htf, hts]

/-- Every branch of the per-entry loop body counts the entry exactly
once. -/
theorem scan_step_scanned (m : ℚ) (n : ℤ) (st : ScanState) (e : WatchlistEntry)
    (r : Except String (Option EvalResult)) :
    (scan_step m n st e r).stats.scanned = st.stats.scanned + 1 := by
  unfold scan_step
  rcases r with msg | o
  · rfl
  · cases o with
    | none => rfl
    | some r =>
        dsimp only
        split_ifs <;> rfl

/-- A scan cycle counts every watchlist entry, whatever each entry's
outcome. -/
theorem scan_watchlists_scanned (m : ℚ) (n : ℤ)
    (f : WatchlistEntry → Except String (Option EvalResult)) :
    ∀ (entries : List WatchlistEntry) (st : ScanState),
      (scan_watchlists m n f entries st).stats.scanned =
        st.stats.scanned + entries.length := by
  intro entries
  induction entries with
  | nil => intro st; simp [scan_watchlists]
  | cons e es ih =>
      intro st
      simp only [scan_watchlists, List.foldl_cons, List.length_cons] at *
      rw [ih, scan_step_scanned]
      omega

/-- C4: the 4-hour deduplication window.  First conjunct: whenever the
table already holds a row for the entry's symbol and timeframe whose
timestamp is within 4 hours of the current evaluation time, the loop
body persists nothing — so of two qualifying evaluations less than the
window apart, at most one signal is persisted.  Second conjunct: with
a gap larger than the window (0 versus 20000 seconds), two qualifying
evaluations are both persisted. -/
theorem dedup_window_suppression :
    (∀ (min_score : ℚ) (now2 : ℤ) (st : ScanState) (e : WatchlistEntry)
        (r2 : EvalResult) (row : SignalRow),
      row ∈ st.db → row.symbol = e.symbol → row.timeframe = e.timeframe →
      (now2 - row.timestamp).natAbs < 4 * 3600 →
      (scan_step min_score now2 st e (.ok (some r2))).db = st.db) ∧
    ((4 : ℤ) * 3600 < 20000 - 0 ∧
      (scan_step 1.2 20000
          (scan_step 1.2 0 emptyState sampleEntry (.ok (some sampleEval1)))
          sampleEntry (.ok (some sampleEval2))).db =
        [⟨"BTC", "1h", 0, some TSystem.wind_catcher, 2, "VERY GOOD"⟩,
         ⟨"BTC", "1h", 20000, some TSystem.wind_catcher, 2, "VERY GOOD"⟩]) := by
  constructor
  · intro min_score now2 st e r2 row hmem hsym htf hgap
    have hrecent : signal_exists_recently st.db e.symbol e.timeframe now2 4 = true :=
      signal_exists_recently_of_mem st.db e.symbol e.timeframe now2 4 row hmem
        hsym htf (by omega)
    unfold scan_step
    dsimp only
    split_ifs with h1 h2 <;> rfl
  · constructor
    · norm_num
    · have h1 : scan_step 1.2 0 emptyState sampleEntry (.ok (some sampleEval1)) =
          ⟨[⟨"BTC", "1h", 0, some TSystem.wind_catcher, 2, "VERY GOOD"⟩],
            ⟨1, 1, 1, []⟩⟩ := by
        simp [scan_step, signal_exists_recently, save_signal, emptyState,
          sampleEntry, sampleEval1]
        norm_num
      rw [h1]
      simp [scan_step, signal_exists_recently, save_signal, sampleEntry, sampleEval2]
      norm_num

/-- Witness for `dedup_window_suppression`: a qualifying evaluation
one hour after the stored `sampleRow` is suppressed. -/
theorem dedup_window_suppression_witness :
    (scan_step 1.2 3600 oneRowState sampleEntry (.ok (some sampleEval2))).db =
      oneRowState.db :=
  dedup_window_suppression.1 1.2 3600 oneRowState sampleEntry sampleEval2
    sampleRow (by simp [oneRowState]) rfl rfl (by decide)

/-- C9: the duplicate check reads only symbol, timeframe and timestamp.
First conjunct: any in-window row with the right symbol and timeframe
triggers suppression, with no condition on the row's stored system,
score or classification.  Second conjunct: a qualifying bullish
evaluation is suppressed by a stored BEARISH row for the same symbol
and timeframe inside the window. -/
theorem dedup_ignores_stored_fields :
    (∀ (db : List SignalRow) (sym tf : String) (now : ℤ) (row : SignalRow),
      row ∈ db → row.symbol = sym → row.timeframe = tf →
      now - 4 * 3600 ≤ row.timestamp →
      signal_exists_recently db sym tf now 4 = true) ∧
    (scan_step 1.2 3600 bearishDbState sampleEntry (.ok (some sampleEval2))).db =
      bearishDbState.db := by
  constructor
  · intro db sym tf now row hmem hsym htf hts
    exact signal_exists_recently_of_mem db sym tf now 4 row hmem hsym htf hts
  · simp [scan_step, signal_exists_recently, bearishDbState, sampleBearishRow,
      sampleEntry, sampleEval2]
    norm_num

/-- Witness for `dedup_ignores_stored_fields` at the stored bearish
row. -/
theorem dedup_ignores_stored_fields_witness :
    signal_exists_recently [sampleBearishRow] "BTC" "1h" 3600 4 = true :=
  dedup_ignores_stored_fields.1 [sampleBearishRow] "BTC" "1h" 3600
    sampleBearishRow (by simp) rfl rfl (by decide)

/-- C6: failure isolation.  An erroring detector family contributes
zero events through its wrapper; the aggregation still runs over the
other families unchanged; a scan cycle counts every entry whatever the
per-entry outcomes; an erroring entry is folded past (the cycle
continues with the remaining entries); and the error branch records
the message without touching the signals table. -/
theorem failure_isolation :
    (∀ msg : String,
      get_hull_signals (.error msg) = [] ∧ get_ao_signals (.error msg) = [] ∧
      get_alligator_signals (.error msg) = [] ∧
      get_ichimoku_signals (.error msg) = []) ∧
    (∀ (msg : String) (hull ao alligator ichimoku : List IndicatorSignal)
        (volume : List VolumeSignal),
      calculate_master_confluence (get_hull_signals (.error msg)) ao alligator
          ichimoku volume =
        calculate_master_confluence [] ao alligator ichimoku volume ∧
      calculate_master_confluence hull (get_ao_signals (.error msg)) alligator
          ichimoku volume =
        calculate_master_confluence hull [] alligator ichimoku volume ∧
      calculate_master_confluence hull ao (get_alligator_signals (.error msg))
          ichimoku volume =
        calculate_master_confluence hull ao [] ichimoku volume ∧
      calculate_master_confluence hull ao alligator
          (get_ichimoku_signals (.error msg)) volume =
        calculate_master_confluence hull ao alligator [] volume) ∧
    (∀ (m : ℚ) (n : ℤ) (f : WatchlistEntry → Except String (Option EvalResult))
        (entries : List WatchlistEntry) (st : ScanState),
      (scan_watchlists m n f entries st).stats.scanned =
        st.stats.scanned + entries.length) ∧
    (∀ (m : ℚ) (n : ℤ) (f : WatchlistEntry → Except String (Option EvalResult))
        (pre post : List WatchlistEntry) (bad : WatchlistEntry) (st : ScanState)
        (msg : String),
      f bad = .error msg →
      scan_watchlists m n f (pre ++ bad :: post) st =
        scan_watchlists m n f post
          (scan_step m n (scan_watchlists m n f pre st) bad (.error msg))) ∧
    (∀ (m : ℚ) (n : ℤ) (st : ScanState) (bad : WatchlistEntry) (msg : String),
      (scan_step m n st bad (.error msg)).db = st.db ∧
      (scan_step m n st bad (.error msg)).stats.errors =
        st.stats.errors ++ [msg]) := by
  refine ⟨?_, ?_, ?_, ?_, ?_⟩
  · intro msg
    exact ⟨rfl, rfl, rfl, rfl⟩
  · intro msg hull ao alligator ichimoku volume
    exact ⟨rfl, rfl, rfl, rfl⟩
  · exact scan_watchlists_scanned
  · intro m n f pre post bad st msg h
    simp [scan_watchlists, List.foldl_append, List.foldl_cons, h]
  · intro m n st bad msg
    exact ⟨rfl, rfl⟩

/-- Witness for `failure_isolation`: a watchlist of two entries whose
evaluations both raise is still fully scanned, the error branch leaves
the table unchanged, and the erroring Hull wrapper contributes no
events. -/
theorem failure_isolation_witness :
    get_hull_signals (.error "boom") = [] ∧
    (scan_watchlists 1.2 0 (fun _ => .error "boom")
        ([] ++ sampleEntry :: [sampleEntry]) emptyState) =
      scan_watchlists 1.2 0 (fun _ => .error "boom") [sampleEntry]
        (scan_step 1.2 0
          (scan_watchlists 1.2 0 (fun _ => .error "boom") [] emptyState)
          sampleEntry (.error "boom")) ∧
    (scan_step 1.2 0 emptyState sampleEntry (.error "boom")).db = emptyState.db :=
  ⟨(failure_isolation.1 "boom").1,
   failure_isolation.2.2.2.1 1.2 0 (fun _ => .error "boom") [] [sampleEntry]
     sampleEntry emptyState "boom" rfl,
   (failure_isolation.2.2.2.2 1.2 0 emptyState sampleEntry "boom").1⟩

end SignalDetectorTheorems
